import Mathlib

set_option linter.unusedVariables false

/-!
Shallow embedding of the gateway-bridge core of the lds repository
(package lds: NSClient, the Semtech packet-forwarder codec, and the
main-package forwarderConnect glue), together with theorems settling the
frozen claims about it.

Conventions of the embedding:
* Go byte strings are `List Nat` with each element < 256 (hypotheses state
  the bound where it matters).
* Machine-integer casts are explicit: `uint64` / `uint32` conversions are
  `% 2 ^ 64` / `% 2 ^ 32` on `Nat` (after a two's-complement `Int.emod`
  for signed sources).
* Fallible Go calls return `Except` / `Option`; a Go runtime panic is a
  distinct `GoOutcome.panicked` constructor, separate from an `error`
  return value.
* Nondeterministic inputs of the code (the current wall-clock time string
  from `time.Now()`, the random token from `rand.Int()`, and the outcomes
  of the external networking calls `net.ParseIP` / `net.DialUDP` /
  `conn.Write` / `evio.Serve`) are explicit parameters, so every theorem
  quantifies over them.
* Go `float32` / `float64` values are modelled as exact rationals (`Rat`);
  float rounding and Go's shortest-round-trip float formatting are not
  modelled bit-exactly (see `goFloatStr`). No claim below depends on the
  serialised text of a float field.
-/

namespace Lds

/-- Error values that the embedded code can produce. `eof` and
`unexpectedEOF` are `io.EOF` / `io.ErrUnexpectedEOF` from `io.ReadFull`
inside `binary.Read`; `badServerIP` is the `errors.New("bad network server
IP")` value of `NSClient.send`; `hexInvalidByte` / `hexLength` are
`encoding/hex` decode errors; `numSyntax` / `numRange` are the
`strconv.Atoi` error kinds; `netErr` stands for an arbitrary error value
returned by an external networking call (dial or write). -/
inductive GoErr
  | eof
  | unexpectedEOF
  | badServerIP
  | hexInvalidByte (c : Char)
  | hexLength
  | numSyntax
  | numRange
  | netErr (tag : Nat)
deriving DecidableEq

/-- Outcome of running a Go function: a normal return value, a returned
`error`, or a runtime panic (which in Go aborts the caller instead of
returning). -/
inductive GoOutcome (A : Type)
  | ok (val : A)
  | err (e : GoErr)
  | panicked (msg : String)
deriving DecidableEq

/-- Two's-complement conversion `uint64(x)` of a signed Go integer:
reduce modulo `2 ^ 64` (Lean's `Int.emod` by a positive modulus is
non-negative, matching the wrap-around of the Go conversion). -/
def uint64cast (x : Int) : Nat :=
  (x % (2 ^ 64 : Int)).toNat

/-- Protobuf well-known type `duration.Duration` (the fields the code
reads: `Seconds int64`, `Nanos int32`). -/
structure Duration where
  Seconds : Int
  Nanos : Int
deriving DecidableEq

/-- Embedding of `toMilliseconds` (source: `func toMilliseconds(d
*duration.Duration) uint64 { return uint64(d.Seconds)*1000 +
uint64(d.Nanos)/1000 }`). All arithmetic is Go `uint64` arithmetic, hence
the explicit wrap-arounds. Note the source divides `Nanos` by 1000, which
yields microseconds, not milliseconds. -/
def toMilliseconds (d : Duration) : Nat :=
  (uint64cast d.Seconds * 1000 % 2 ^ 64 + uint64cast d.Nanos / 1000) % 2 ^ 64

/-- Return value of `UDPParsePacket`: the `bool` result (`isDownlink`) and
the map assigned through the `*map[string]interface{}` out-parameter
(`none` when the function returned before assigning it; the code only ever
assigns the empty map). -/
structure UDPParseReturn where
  isDownlink : Bool
  result : Option (List (String × String))
deriving DecidableEq

/-- Embedding of `UDPParsePacket(packet []byte, result
*map[string]interface\x7b\x7d) (bool, error)`.

The function calls `binary.Read(bytes.NewReader(packet),
binary.LittleEndian, &data)` where `data` is `struct \x7b version int8;
token int16; id int8 \x7d` — a 4-byte fixed-size struct whose fields are
all unexported. Tracing Go's `encoding/binary.Read`:
1. it allocates a 4-byte buffer and calls `io.ReadFull` on the reader;
   with an empty packet this fails with `io.EOF`, with 1–3 bytes with
   `io.ErrUnexpectedEOF`, and `binary.Read` returns that error, which
   `UDPParsePacket` returns as `(false, err)`;
2. with at least 4 bytes available `io.ReadFull` succeeds and the
   reflect-based decoder walks the struct fields; only blank (`_`) fields
   are skipped, so it calls `reflect.Value.SetInt` on the unexported field
   `version`, and `SetInt` on a value obtained through an unexported field
   panics (`reflect: reflect.Value.SetInt using value obtained using
   unexported field`).
Hence no input of length ≥ 4 ever reaches the `data.id != 0x03`
comparison on the message-id byte or the result-map assignment. -/
def UDPParsePacket (packet : List Nat) : GoOutcome UDPParseReturn :=
  if packet.length = 0 then .err .eof
  else if packet.length < 4 then .err .unexpectedEOF
  else .panicked "reflect: reflect.Value.SetInt using value obtained using unexported field"

/-- The standard base64 alphabet of `encoding/base64.StdEncoding`. -/
def b64AlphabetList : List Char :=
  "ABCDEFGHIJKLMNOPQRSTUVWXYZabcdefghijklmnopqrstuvwxyz0123456789+/".toList

/-- Character of the standard base64 alphabet at a 6-bit index. -/
def b64Char (n : Nat) : Char :=
  b64AlphabetList.getD n '='

/-- Inverse lookup into the standard base64 alphabet. -/
def b64Index (c : Char) : Option Nat :=
  let i := b64AlphabetList.indexOf c
  if i < 64 then some i else none

/-- Embedding of `base64.StdEncoding.EncodeToString` on a byte list
(producing the character list of the result): bytes are taken three at a
time into four 6-bit groups, with `=` padding closing a 1- or 2-byte
tail. The divisions and remainders spell out the shift/mask arithmetic of
`encoding/base64` (`b1>>2`, `(b1&3)<<4 | b2>>4`, `(b2&15)<<2 | b3>>6`,
`b3&63`). -/
def base64EncodeChars : List Nat → List Char
  | b1 :: b2 :: b3 :: rest =>
      b64Char (b1 / 4) :: b64Char (b1 % 4 * 16 + b2 / 16) ::
        b64Char (b2 % 16 * 4 + b3 / 64) :: b64Char (b3 % 64) :: base64EncodeChars rest
  | [b1, b2] =>
      [b64Char (b1 / 4), b64Char (b1 % 4 * 16 + b2 / 16), b64Char (b2 % 16 * 4), '=']
  | [b1] =>
      [b64Char (b1 / 4), b64Char (b1 % 4 * 16), '=', '=']
  | [] => []

/-- Embedding of `base64.StdEncoding.EncodeToString`. -/
def base64EncodeToString (bs : List Nat) : String :=
  String.mk (base64EncodeChars bs)

/-- Decoding of the final 4-character group of a standard base64 string,
honouring `=` padding: `xx==` yields one byte, `xxx=` two, and a full
group three. A `=` anywhere else (or any non-alphabet character) fails,
as in `base64.StdEncoding.DecodeString`. -/
def base64DecodeLast (c1 c2 c3 c4 : Char) : Option (List Nat) :=
  if c4 = '=' then
    if c3 = '=' then
      match b64Index c1, b64Index c2 with
      | some a, some b => some [a * 4 + b / 16]
      | _, _ => none
    else
      match b64Index c1, b64Index c2, b64Index c3 with
      | some a, some b, some c => some [a * 4 + b / 16, b % 16 * 16 + c / 4]
      | _, _, _ => none
  else
    match b64Index c1, b64Index c2, b64Index c3, b64Index c4 with
    | some a, some b, some c, some d =>
        some [a * 4 + b / 16, b % 16 * 16 + c / 4, c % 4 * 64 + d]
    | _, _, _, _ => none

/-- Standard (RFC 4648) base64 decoding on a character list, the inverse
of `base64EncodeChars`: the input is consumed in groups of four
characters, padding is allowed only in the final group, and any other
length or character fails (`base64.StdEncoding.DecodeString` semantics,
modulo its lenient treatment of non-zero discarded bits, which this
decoder shares). -/
def base64DecodeChars : List Char → Option (List Nat)
  | [] => some []
  | c1 :: c2 :: c3 :: c4 :: rest =>
      if rest = [] then base64DecodeLast c1 c2 c3 c4
      else
        match b64Index c1, b64Index c2, b64Index c3, b64Index c4, base64DecodeChars rest with
        | some a, some b, some c, some d, some tail =>
            some ((a * 4 + b / 16) :: (b % 16 * 16 + c / 4) :: (c % 4 * 64 + d) :: tail)
        | _, _, _, _, _ => none
  | _ => none

/-- Standard base64 decoding of a string. -/
def base64DecodeString (s : String) : Option (List Nat) :=
  base64DecodeChars s.toList

/-- Value of a hexadecimal digit character, as in `encoding/hex`. -/
def fromHexChar (c : Char) : Option Nat :=
  if 48 ≤ c.toNat ∧ c.toNat ≤ 57 then some (c.toNat - 48)
  else if 97 ≤ c.toNat ∧ c.toNat ≤ 102 then some (c.toNat - 97 + 10)
  else if 65 ≤ c.toNat ∧ c.toNat ≤ 70 then some (c.toNat - 65 + 10)
  else none

/-- Embedding of `hex.DecodeString` on the character list: characters are
consumed two at a time, an invalid character fails with
`hex.InvalidByteError`, and an odd trailing character fails with
`hex.ErrLength` (after Go's check that the lone character is itself a
valid hex digit). The partially decoded prefix that Go also returns
alongside the error is dropped: the caller discards it on error. -/
def hexDecodePairs : List Char → Except GoErr (List Nat)
  | c1 :: c2 :: rest =>
      match fromHexChar c1 with
      | none => .error (.hexInvalidByte c1)
      | some a =>
          match fromHexChar c2 with
          | none => .error (.hexInvalidByte c2)
          | some b =>
              match hexDecodePairs rest with
              | .error e => .error e
              | .ok tail => .ok ((a * 16 + b) :: tail)
  | [c] =>
      match fromHexChar c with
      | none => .error (.hexInvalidByte c)
      | some _ => .error .hexLength
  | [] => .ok []

/-- Embedding of `hex.DecodeString`. -/
def hexDecodeString (s : String) : Except GoErr (List Nat) :=
  hexDecodePairs s.toList

/-- Embedding of `strconv.Atoi` (that is, `strconv.ParseInt(s, 10, 0)`
with 64-bit `int`): an optional single `+` or `-` sign followed by at
least one decimal digit, anything else being a syntax error, and a result
outside the `int64` range being a range error. -/
def goAtoi (s : String) : Except GoErr Int :=
  let cs := s.toList
  let signed : Bool × List Char :=
    match cs with
    | '+' :: rest => (false, rest)
    | '-' :: rest => (true, rest)
    | _ => (false, cs)
  let neg := signed.1
  let ds := signed.2
  if ds.isEmpty then .error .numSyntax
  else if ds.all (fun c => decide (48 ≤ c.toNat) && decide (c.toNat ≤ 57)) then
    let n : Nat := ds.foldl (fun acc c => acc * 10 + (c.toNat - 48)) 0
    let v : Int := if neg then -(n : Int) else (n : Int)
    if v < -(2 ^ 63 : Int) ∨ (2 ^ 63 : Int) - 1 < v then .error .numRange else .ok v
  else .error .numSyntax

/-- The fields the code reads from `gw.UplinkRXInfo` (via its getters):
`GetTimeSinceGpsEpoch`, `GetChannel`, `GetRfChain`, `GetRssi`,
`GetLoraSnr`. `loraSnr` is a Go `float64`, modelled as an exact
rational. -/
structure UplinkRXInfo where
  timeSinceGpsEpoch : Duration
  channel : Nat
  rfChain : Nat
  rssi : Int
  loraSnr : Rat
deriving DecidableEq

/-- The fields the code reads from `gw.LoraModulationInfo`:
`SpreadingFactor`, `GetBandwidth` (both `uint32`), `GetCodeRate`. -/
structure LoraModulationInfo where
  spreadingFactor : Nat
  bandwidth : Nat
  codeRate : String
deriving DecidableEq

/-- The fields the code reads from `gw.UplinkTXInfo`: `GetFrequency`
(`uint32`) and `GetLoraModulationInfo`. -/
structure UplinkTXInfo where
  frequency : Nat
  loraModulationInfo : LoraModulationInfo
deriving DecidableEq

/-- Embedding of the `pfpacket` struct (one Semtech `rxpk` record), with
the field types of the source: `TMMS uint64`, `TMST`, `Chan`, `RFCH`,
`Size uint32` as `Nat`; `Stat`, `RSSI int32` as `Int`; `Freq float32`,
`LSNR float64` as `Rat`. -/
structure pfpacket where
  Time : String
  TMMS : Nat
  TMST : Nat
  Chan : Nat
  RFCH : Nat
  Freq : Rat
  Stat : Int
  Modu : String
  DatR : String
  CorR : String
  RSSI : Int
  LSNR : Rat
  Size : Nat
  Data : String
deriving DecidableEq

/-- Embedding of the `pfproto` struct: the JSON envelope holding the
`rxpk` array. -/
structure pfproto where
  RXPK : List pfpacket
deriving DecidableEq

/-- The `rxpk` record that `sendWithPayload` builds (source lines filling
`packet := pfpacket\x7b\x7d` field by field). `utc` is the
`time.Now().Format(time.RFC3339)` string, a nondeterministic input of the
code. `TMST` carries the `uint32(...)` conversion of the source; `Size`
carries `uint32(len(payload))`; `Freq` is `float32(txInfo.GetFrequency())
/ 1000000.0`, modelled exactly (the `float32` rounding of the quotient is
not). -/
def rxpkOf (utc : String) (payload : List Nat) (rxInfo : UplinkRXInfo)
    (txInfo : UplinkTXInfo) : pfpacket :=
  let gps := rxInfo.timeSinceGpsEpoch
  let mod := txInfo.loraModulationInfo
  { Time := utc
    TMMS := toMilliseconds gps / 1000
    TMST := toMilliseconds gps / 1000 / 1000 % 2 ^ 32
    Chan := rxInfo.channel
    RFCH := rxInfo.rfChain
    Freq := (txInfo.frequency : Rat) / 1000000
    Stat := 1
    Modu := "LORA"
    DatR := "SF" ++ toString mod.spreadingFactor ++ "BW" ++ toString mod.bandwidth
    CorR := mod.codeRate
    RSSI := rxInfo.rssi
    LSNR := rxInfo.loraSnr
    Size := payload.length % 2 ^ 32
    Data := base64EncodeToString payload }

/-- JSON string escaping for the string fields of the marshalled packet
(quote and backslash; the control-character escapes of `encoding/json`
are not modelled — no field of the code's packets contains one). -/
def jsonEscape (s : String) : String :=
  String.mk (s.toList.flatMap fun c =>
    if c = '"' then ['\\', '"']
    else if c = '\\' then ['\\', '\\'] else [c])

/-- A JSON string literal. -/
def jsonQuote (s : String) : String :=
  "\"" ++ jsonEscape s ++ "\""

/-- Serialised text of a float-typed field. Go renders floats with
shortest-round-trip formatting (`strconv.AppendFloat`); this stand-in
prints the exact rational as an integer when it is one and otherwise as a
truncated micro-unit mantissa with a fixed `e-6` exponent. It is an
admitted simplification of the float text; no claim below depends on this
text. -/
def goFloatStr (q : Rat) : String :=
  if q.den = 1 then toString q.num
  else toString (q.num * 1000000 / (q.den : Int)) ++ "e-6"

/-- Marshalling of one `pfpacket` as `encoding/json` does: an object with
the struct's json tags in field declaration order. -/
def jsonMarshalPfpacket (p : pfpacket) : String :=
  "\x7b\"time\":" ++ jsonQuote p.Time ++
    ",\"tmms\":" ++ toString p.TMMS ++
    ",\"tmst\":" ++ toString p.TMST ++
    ",\"chan\":" ++ toString p.Chan ++
    ",\"rfch\":" ++ toString p.RFCH ++
    ",\"freq\":" ++ goFloatStr p.Freq ++
    ",\"stat\":" ++ toString p.Stat ++
    ",\"modu\":" ++ jsonQuote p.Modu ++
    ",\"datr\":" ++ jsonQuote p.DatR ++
    ",\"codr\":" ++ jsonQuote p.CorR ++
    ",\"rssi\":" ++ toString p.RSSI ++
    ",\"lsnr\":" ++ goFloatStr p.LSNR ++
    ",\"size\":" ++ toString p.Size ++
    ",\"data\":" ++ jsonQuote p.Data ++ "\x7d"

/-- Marshalling of the `pfproto` envelope: `\x7b"rxpk":[ ... ]\x7d` with
the packets comma-separated. `json.Marshal` cannot fail on these field
types (no non-finite float is representable in the `Rat` model), so the
embedding is total; the `if err != nil` branch after `json.Marshal` in
the source is therefore never taken. -/
def jsonMarshalPfproto (p : pfproto) : String :=
  "\x7b\"rxpk\":[" ++ String.intercalate "," (p.RXPK.map jsonMarshalPfpacket) ++ "]\x7d"

/-- UTF-8 bytes of a marshalled JSON string. All strings the code
marshals are ASCII (base64 text, RFC 3339 text, fixed literals), for
which the code points are the bytes. -/
def utf8Bytes (s : String) : List Nat :=
  s.toList.map Char.toNat

/-- Embedding of the `NSClient` struct (the `udpEvents evio.Events`
field, a handle populated only inside `Connect`, is represented by the
`handlerRegistered` flag of `ConnectResult` below rather than stored). -/
structure NSClient where
  Server : String
  Port : Int
  connected : Bool
deriving DecidableEq

/-- Embedding of `NSClient.IsConnected`. -/
def NSClient.IsConnected (client : NSClient) : Bool :=
  client.connected

/-- Outcomes of the external networking calls that `NSClient.send`
makes, as an environment the theorems quantify over: whether
`net.ParseIP` accepts a given server string, and the `error` results of
`net.DialUDP` and `conn.Write` (`none` meaning success). -/
structure NetEnv where
  parseIPOk : String → Bool
  dialErr : Option GoErr
  writeErr : Option GoErr

/-- Embedding of `NSClient.send`: fail with the `"bad network server
IP"` error when `net.ParseIP(client.Server)` returns nil, then dial, then
write, returning the first failure, and `ok` when the write succeeds. -/
def NSClient.send (env : NetEnv) (client : NSClient) (b : List Nat) : Except GoErr Unit :=
  if !env.parseIPOk client.Server then .error .badServerIP
  else
    match env.dialErr with
    | some e => .error e
    | none =>
        match env.writeErr with
        | some e => .error e
        | none => .ok ()

/-- What `NSClient.Connect` leaves behind: its returned error, the
updated client, and whether the `udpEvents.Data` callback was
registered. -/
structure ConnectResult where
  err : Option GoErr
  client : NSClient
  handlerRegistered : Bool

/-- Embedding of `NSClient.Connect(onReceive)`. The source registers the
data callback, starts `evio.Serve` on `udp://0.0.0.0:\x7bPort\x7d` in a
new goroutine with `go`, discarding `Serve`'s return value, then
unconditionally sets `connected = true` and returns `nil`. `bindFails`
models whether that background `evio.Serve` call fails to bind; it cannot
influence the synchronous result, which is why it is unused on the
right-hand side. -/
def NSClient.Connect (client : NSClient) (bindFails : Bool) : ConnectResult :=
  { err := none
    client := { client with connected := true }
    handlerRegistered := true }

instance {e a : Type} [DecidableEq e] [DecidableEq a] : DecidableEq (Except e a) := fun x y =>
  match x, y with
  | .error u, .error v =>
      if h : u = v then isTrue (by rw [h]) else isFalse (by intro hc; cases hc; exact h rfl)
  | .ok u, .ok v =>
      if h : u = v then isTrue (by rw [h]) else isFalse (by intro hc; cases hc; exact h rfl)
  | .error _, .ok _ => isFalse (by intro hc; cases hc)
  | .ok _, .error _ => isFalse (by intro hc; cases hc)

/-- Result of `sendWithPayload`: the returned error (`none` is Go's
`nil`), the datagram handed to `client.send` when that call was reached,
and what `client.send` returned there — recorded because the source
discards it (`client.send(datagram)` with the result unused). -/
structure SendResult where
  ret : Option GoErr
  sent : Option (List Nat)
  sendOutcome : Option (Except GoErr Unit)
deriving DecidableEq

/-- The most significant token byte, `byte((token & 0xFF00) >> 8)`. -/
def tokenMSB (token : Nat) : Nat :=
  (token &&& 0xFF00) >>> 8

/-- The least significant token byte, `byte(token & 0x00FF)`. -/
def tokenLSB (token : Nat) : Nat :=
  token &&& 0x00FF

/-- The 4-byte outbound header `[]byte\x7bversion, tokenmsb, tokenlsb,
id\x7d` with `version = 0x02` and `id = 0x00` (PUSH_DATA). -/
def pushDataHeader (token : Nat) : List Nat :=
  [0x02, tokenMSB token, tokenLSB token, 0x00]

/-- Embedding of `NSClient.sendWithPayload(payload, gwMAC, rxInfo,
txInfo)`. `utc` and `token` are the values of `time.Now()` and
`rand.Int()` for this call. Following the source's order: base64-encode
the payload, build the `pfpacket` and the one-element `pfproto`, marshal
it (total here, see `jsonMarshalPfproto`), build the header, hex-decode
the gateway MAC — returning the error when that fails, before any send —
join header, MAC bytes and JSON into the datagram, call `client.send`
with its result discarded, and return `nil`. -/
def NSClient.sendWithPayload (env : NetEnv) (client : NSClient) (utc : String)
    (token : Nat) (payload : List Nat) (gwMAC : String) (rxInfo : UplinkRXInfo)
    (txInfo : UplinkTXInfo) : SendResult :=
  let packet := rxpkOf utc payload rxInfo txInfo
  let proto : pfproto := { RXPK := [packet] }
  let packetJSON := jsonMarshalPfproto proto
  let header := pushDataHeader token
  match hexDecodeString gwMAC with
  | .error e => { ret := some e, sent := none, sendOutcome := none }
  | .ok gwbytes =>
      let datagram := header ++ gwbytes ++ utf8Bytes packetJSON
      { ret := none
        sent := some datagram
        sendOutcome := some (NSClient.send env client datagram) }

/-- The configuration fields `forwarderConnect` reads and the package
state it mutates: `config.Forwarder.Server`, `config.Forwarder.Port` and
the global `cNSClient`. -/
structure ForwarderState where
  forwarderServer : String
  forwarderPort : String
  cNSClient : NSClient
deriving DecidableEq

/-- What `forwarderConnect` leaves behind: its returned error, the state
after the call, and whether `cNSClient.Connect` was invoked. -/
structure ForwarderConnectResult where
  err : Option GoErr
  state : ForwarderState
  connectCalled : Bool

/-- Embedding of `forwarderConnect`: parse the configured port with
`strconv.Atoi`; on failure return that error at once (the log line has no
observable effect on the state), leaving the client untouched and without
calling `Connect`; on success assign `cNSClient.Server` and
`cNSClient.Port` and call `cNSClient.Connect`, whose error result the
source discards before returning `nil`. -/
def forwarderConnect (s : ForwarderState) (bindFails : Bool) : ForwarderConnectResult :=
  match goAtoi s.forwarderPort with
  | .error e => { err := some e, state := s, connectCalled := false }
  | .ok port =>
      let client1 := { s.cNSClient with Server := s.forwarderServer, Port := port }
      let cr := client1.Connect bindFails
      { err := none
        state := { s with cNSClient := cr.client }
        connectCalled := true }

/-- A sample metadata record used by concrete witnesses: GPS-epoch time 1 s,
channel 2, RF chain 0, RSSI −57, SNR 3.5. -/
def sampleRx : UplinkRXInfo :=
  { timeSinceGpsEpoch := { Seconds := 1, Nanos := 0 }
    channel := 2, rfChain := 0, rssi := -57, loraSnr := (7 : Rat) / 2 }

/-- A sample transmission-metadata record: 868.1 MHz, SF7, BW 125, CR 4/5. -/
def sampleTx : UplinkTXInfo :=
  { frequency := 868100000
    loraModulationInfo := { spreadingFactor := 7, bandwidth := 125, codeRate := "4/5" } }

/-- A network environment in which every external call succeeds. -/
def allOkEnv : NetEnv :=
  { parseIPOk := fun _ => true, dialErr := none, writeErr := none }

/-- A network environment in which `net.ParseIP` rejects every server
string, the situation of a non-IP `Server` value such as a host name. -/
def badIPEnv : NetEnv :=
  { parseIPOk := fun _ => false, dialErr := none, writeErr := none }

/-- C1: the claim states that `UDPParsePacket` returns `isDownlink=false`
for any header whose message-id byte differs from 0x03 and a decode error
(never a crash) for inputs shorter than 4 bytes. The code honours the
short-input half — the empty packet yields `io.EOF` and 1–3-byte packets
yield `io.ErrUnexpectedEOF`, both returned as errors — but on every
packet of length ≥ 4 the `binary.Read` into a struct of unexported fields
panics before the message-id comparison is reached, so the function is
not total: the 4-byte PUSH_DATA-style header `02 00 00 00` (message id
0x00 ≠ 0x03) panics instead of returning `false`. -/
theorem UDPParsePacket_short_input_errors_but_header_panics :
    UDPParsePacket [] = .err .eof ∧
    UDPParsePacket [0x02] = .err .unexpectedEOF ∧
    UDPParsePacket [0x02, 0x00, 0x00] = .err .unexpectedEOF ∧
    UDPParsePacket [0x02, 0x00, 0x00, 0x00] =
      .panicked "reflect: reflect.Value.SetInt using value obtained using unexported field" ∧
    UDPParsePacket [0x02, 0x00, 0x00, 0x01, 0x41] =
      .panicked "reflect: reflect.Value.SetInt using value obtained using unexported field" :=
  ⟨rfl, rfl, rfl, rfl, rfl⟩

/-- C2: the claim states that a PULL_RESP datagram (length ≥ 4, message
id 0x03) makes `UDPParsePacket` return `isDownlink=false`, a nil error
and an empty result map. In the code the `binary.Read` into the
unexported-field struct panics on every input of length ≥ 4, including
every PULL_RESP datagram, before the stub body is reached: evaluated on
the minimal PULL_RESP header and on a PULL_RESP datagram with a JSON
body, the function panics rather than returning the empty result. -/
theorem UDPParsePacket_pullresp_panics :
    UDPParsePacket [0x02, 0x00, 0x00, 0x03] =
      .panicked "reflect: reflect.Value.SetInt using value obtained using unexported field" ∧
    UDPParsePacket ([0x02, 0xAA, 0xBB, 0x03] ++ utf8Bytes "\x7b\"txpk\":[]\x7d") =
      .panicked "reflect: reflect.Value.SetInt using value obtained using unexported field" :=
  ⟨rfl, rfl⟩

/-- C3 counterexample: with a server string that `net.ParseIP` rejects,
`client.send` fails with the `"bad network server IP"` error, yet
`sendWithPayload` returns nil (`ret = none`), because the source discards
the result of `client.send(datagram)`. This refutes the claim that the
send failure is returned synchronously to the caller. -/
theorem sendWithPayload_send_failure_counterexample :
    (NSClient.sendWithPayload badIPEnv { Server := "not an ip", Port := 1700, connected := true }
        "2020-01-01T00:00:00Z" 0 [1, 2, 3] "0011223344556677" sampleRx sampleTx).sendOutcome =
      some (.error .badServerIP) ∧
    (NSClient.sendWithPayload badIPEnv { Server := "not an ip", Port := 1700, connected := true }
        "2020-01-01T00:00:00Z" 0 [1, 2, 3] "0011223344556677" sampleRx sampleTx).ret = none :=
  ⟨rfl, rfl⟩

/-- C3 as amended: whenever the gateway MAC hex-decodes (and the JSON
marshalling, total here, succeeds), `sendWithPayload` returns nil no
matter how the underlying UDP send fares — the send outcome is computed
and discarded. Failures of the send step never surface to the caller;
only marshalling and MAC hex-decode failures do. -/
theorem sendWithPayload_ignores_send_errors (env : NetEnv) (client : NSClient)
    (utc : String) (token : Nat) (payload : List Nat) (gwMAC : String)
    (rxInfo : UplinkRXInfo) (txInfo : UplinkTXInfo) (gwbytes : List Nat)
    (hhex : hexDecodeString gwMAC = .ok gwbytes) :
    (NSClient.sendWithPayload env client utc token payload gwMAC rxInfo txInfo).ret = none := by
  simp [NSClient.sendWithPayload, hhex]

/-- Concrete instantiation of `sendWithPayload_ignores_send_errors`: the
hypothesis holds for the MAC `"0011223344556677"` and the conclusion is
obtained from the theorem at that input, in an environment where the
send fails. -/
theorem sendWithPayload_ignores_send_errors_witness :
    (NSClient.sendWithPayload badIPEnv { Server := "example.com", Port := 1700, connected := true }
        "2020-01-01T00:00:00Z" 77 [10] "0011223344556677" sampleRx sampleTx).ret = none :=
  sendWithPayload_ignores_send_errors badIPEnv
    { Server := "example.com", Port := 1700, connected := true }
    "2020-01-01T00:00:00Z" 77 [10] "0011223344556677" sampleRx sampleTx
    [0x00, 0x11, 0x22, 0x33, 0x44, 0x55, 0x66, 0x77] (by decide)

/-- C4 counterexample: on a disconnected client whose background bind
fails, `Connect` still returns nil and leaves the client reporting
`IsConnected() = true` — refuting the claim that a bind failure is
returned and the state stays disconnected. -/
theorem Connect_bind_failure_counterexample :
    (NSClient.Connect { Server := "127.0.0.1", Port := 1700, connected := false } true).err =
      none ∧
    (NSClient.Connect { Server := "127.0.0.1", Port := 1700, connected := false } true).client.IsConnected =
      true :=
  ⟨rfl, rfl⟩

/-- C4 as amended: `Connect` always returns nil and always sets the
connected flag, for every client and regardless of whether the
`evio.Serve` call in the background goroutine manages to bind — the
bind outcome is discarded and cannot influence the synchronous result. -/
theorem Connect_always_nil_and_connected (client : NSClient) (bindFails : Bool) :
    (client.Connect bindFails).err = none ∧
    (client.Connect bindFails).client = { client with connected := true } ∧
    (client.Connect bindFails).client.IsConnected = true :=
  ⟨rfl, rfl, rfl⟩

/-- C6: the rxpk record built by the uplink encoder has
`datr = "SF" ++ sf ++ "BW" ++ bw` (the `fmt.Sprintf("SF%dBW%d", ...)` of
the source), `stat = 1` and `modu = "LORA"`, for every metadata. -/
theorem rxpk_datr_stat_modu (utc : String) (payload : List Nat)
    (rxInfo : UplinkRXInfo) (txInfo : UplinkTXInfo) :
    (rxpkOf utc payload rxInfo txInfo).DatR =
      "SF" ++ toString txInfo.loraModulationInfo.spreadingFactor ++
        "BW" ++ toString txInfo.loraModulationInfo.bandwidth ∧
    (rxpkOf utc payload rxInfo txInfo).Stat = 1 ∧
    (rxpkOf utc payload rxInfo txInfo).Modu = "LORA" :=
  ⟨rfl, rfl, rfl⟩

/-- C8: the claim says `tmms` equals milliseconds since the GPS epoch,
`s*1000 + n/1000000`. The code computes `toMilliseconds` as
`uint64(Seconds)*1000 + uint64(Nanos)/1000` (milliseconds plus
microseconds) and then divides by a further 1000 when filling `TMMS`. At
`Seconds = 1, Nanos = 0` the claimed value is `1*1000 + 0/1000000 =
1000`, while the code stores `toMilliseconds = 1000` and
`TMMS = 1000/1000 = 1`. -/
theorem rxpk_tmms_divergence :
    toMilliseconds { Seconds := 1, Nanos := 0 } = 1000 ∧
    (rxpkOf "2020-01-01T00:00:00Z" [] sampleRx sampleTx).TMMS = 1 ∧
    (1 : Nat) * 1000 + 0 / 1000000 = 1000 := by
  refine ⟨by decide, by decide, by decide⟩

/-- C9: when the configured forwarder port fails `strconv.Atoi`,
`forwarderConnect` returns that parse error immediately: the global
client's fields are untouched, its connection state is unchanged, and
`NSClient.Connect` is never invoked, so no listener is started. -/
theorem forwarderConnect_bad_port_aborts (s : ForwarderState) (bindFails : Bool)
    (e : GoErr) (h : goAtoi s.forwarderPort = .error e) :
    (forwarderConnect s bindFails).err = some e ∧
    (forwarderConnect s bindFails).state = s ∧
    (forwarderConnect s bindFails).connectCalled = false := by
  simp [forwarderConnect, h]

/-- Concrete instantiation of `forwarderConnect_bad_port_aborts` at the
non-numeric port string `"17oo"`, whose `Atoi` parse fails with a syntax
error. -/
theorem forwarderConnect_bad_port_aborts_witness :
    (forwarderConnect
        { forwarderServer := "127.0.0.1", forwarderPort := "17oo"
          cNSClient := { Server := "", Port := 0, connected := false } } false).err =
      some .numSyntax ∧
    (forwarderConnect
        { forwarderServer := "127.0.0.1", forwarderPort := "17oo"
          cNSClient := { Server := "", Port := 0, connected := false } } false).state =
      { forwarderServer := "127.0.0.1", forwarderPort := "17oo"
        cNSClient := { Server := "", Port := 0, connected := false } } ∧
    (forwarderConnect
        { forwarderServer := "127.0.0.1", forwarderPort := "17oo"
          cNSClient := { Server := "", Port := 0, connected := false } } false).connectCalled =
      false :=
  forwarderConnect_bad_port_aborts
    { forwarderServer := "127.0.0.1", forwarderPort := "17oo"
      cNSClient := { Server := "", Port := 0, connected := false } }
    false .numSyntax (by decide)

/-- C10: when the gateway MAC string is not valid hexadecimal,
`sendWithPayload` returns the hex-decode error (a non-nil error) and the
send step is never reached: no datagram is handed to `client.send`. -/
theorem sendWithPayload_bad_mac_aborts (env : NetEnv) (client : NSClient)
    (utc : String) (token : Nat) (payload : List Nat) (gwMAC : String)
    (rxInfo : UplinkRXInfo) (txInfo : UplinkTXInfo) (e : GoErr)
    (hhex : hexDecodeString gwMAC = .error e) :
    (NSClient.sendWithPayload env client utc token payload gwMAC rxInfo txInfo).ret = some e ∧
    (NSClient.sendWithPayload env client utc token payload gwMAC rxInfo txInfo).sent = none ∧
    (NSClient.sendWithPayload env client utc token payload gwMAC rxInfo txInfo).sendOutcome =
      none := by
  simp [NSClient.sendWithPayload, hhex]

/-- Concrete instantiation of `sendWithPayload_bad_mac_aborts` at the
non-hexadecimal MAC `"00112233445566zz"`. -/
theorem sendWithPayload_bad_mac_aborts_witness :
    (NSClient.sendWithPayload allOkEnv { Server := "127.0.0.1", Port := 1700, connected := true }
        "2020-01-01T00:00:00Z" 77 [10] "00112233445566zz" sampleRx sampleTx).ret =
      some (.hexInvalidByte 'z') ∧
    (NSClient.sendWithPayload allOkEnv { Server := "127.0.0.1", Port := 1700, connected := true }
        "2020-01-01T00:00:00Z" 77 [10] "00112233445566zz" sampleRx sampleTx).sent = none ∧
    (NSClient.sendWithPayload allOkEnv { Server := "127.0.0.1", Port := 1700, connected := true }
        "2020-01-01T00:00:00Z" 77 [10] "00112233445566zz" sampleRx sampleTx).sendOutcome =
      none :=
  sendWithPayload_bad_mac_aborts allOkEnv
    { Server := "127.0.0.1", Port := 1700, connected := true }
    "2020-01-01T00:00:00Z" 77 [10] "00112233445566zz" sampleRx sampleTx
    (.hexInvalidByte 'z') (by decide)

/-- Looking an alphabet character back up recovers its 6-bit index. -/
theorem b64Index_b64Char : ∀ i, i < 64 → b64Index (b64Char i) = some i := by decide

/-- No alphabet character is the padding character. -/
theorem b64Char_ne_pad : ∀ i, i < 64 → b64Char i ≠ '=' := by decide

/-- The encoder emits at least one character on a non-empty input. -/
theorem base64EncodeChars_ne_nil : ∀ (l : List Nat), l ≠ [] → base64EncodeChars l ≠ [] := by
  intro l h
  match l with
  | [] => exact absurd rfl h
  | [b1] => simp [base64EncodeChars]
  | [b1, b2] => simp [base64EncodeChars]
  | b1 :: b2 :: b3 :: rest => simp [base64EncodeChars]

/-- The standard base64 decoder inverts the encoder on every byte list. -/
theorem base64_roundtrip :
    ∀ (p : List Nat), (∀ b ∈ p, b < 256) →
      base64DecodeChars (base64EncodeChars p) = some p := by
  intro p
  induction p using base64EncodeChars.induct with
  | case1 b1 b2 b3 rest ih =>
    intro h
    have hb1 : b1 < 256 := h b1 (by simp)
    have hb2 : b2 < 256 := h b2 (by simp)
    have hb3 : b3 < 256 := h b3 (by simp)
    have i1 : b1 / 4 < 64 := by omega
    have i2 : b1 % 4 * 16 + b2 / 16 < 64 := by omega
    have i3 : b2 % 16 * 4 + b3 / 64 < 64 := by omega
    have i4 : b3 % 64 < 64 := by omega
    have e1 : b1 / 4 * 4 + (b1 % 4 * 16 + b2 / 16) / 16 = b1 := by omega
    have e2 : (b1 % 4 * 16 + b2 / 16) % 16 * 16 + (b2 % 16 * 4 + b3 / 64) / 4 = b2 := by omega
    have e3 : (b2 % 16 * 4 + b3 / 64) % 4 * 64 + b3 % 64 = b3 := by omega
    by_cases hrest : rest = []
    · subst hrest
      simp only [base64EncodeChars, base64DecodeChars, if_pos rfl, base64DecodeLast,
        if_neg (b64Char_ne_pad _ i4),
        b64Index_b64Char _ i1, b64Index_b64Char _ i2, b64Index_b64Char _ i3,
        b64Index_b64Char _ i4, e1, e2, e3]
      simp
    · have hne : base64EncodeChars rest ≠ [] := base64EncodeChars_ne_nil rest hrest
      have htail : base64DecodeChars (base64EncodeChars rest) = some rest :=
        ih (fun b hb => h b (by simp [hb]))
      simp only [base64EncodeChars, base64DecodeChars, if_neg hne,
        b64Index_b64Char _ i1, b64Index_b64Char _ i2, b64Index_b64Char _ i3,
        b64Index_b64Char _ i4, htail, e1, e2, e3]
  | case2 b1 b2 =>
    intro h
    have hb1 : b1 < 256 := h b1 (by simp)
    have hb2 : b2 < 256 := h b2 (by simp)
    have i1 : b1 / 4 < 64 := by omega
    have i2 : b1 % 4 * 16 + b2 / 16 < 64 := by omega
    have i3 : b2 % 16 * 4 < 64 := by omega
    have e1 : b1 / 4 * 4 + (b1 % 4 * 16 + b2 / 16) / 16 = b1 := by omega
    have e2 : (b1 % 4 * 16 + b2 / 16) % 16 * 16 + b2 % 16 * 4 / 4 = b2 := by omega
    simp only [base64EncodeChars, base64DecodeChars, if_pos rfl, base64DecodeLast,
      if_pos rfl, if_neg (b64Char_ne_pad _ i3),
      b64Index_b64Char _ i1, b64Index_b64Char _ i2, b64Index_b64Char _ i3, e1, e2]
    simp
  | case3 b1 =>
    intro h
    have hb1 : b1 < 256 := h b1 (by simp)
    have i1 : b1 / 4 < 64 := by omega
    have i2 : b1 % 4 * 16 < 64 := by omega
    have e1 : b1 / 4 * 4 + b1 % 4 * 16 / 16 = b1 := by omega
    simp only [base64EncodeChars, base64DecodeChars, if_pos rfl, base64DecodeLast,
      if_pos rfl, b64Index_b64Char _ i1, b64Index_b64Char _ i2, e1]
    simp
  | case4 =>
    intro h
    rfl

/-- C5: base64-decoding the `data` field of the rxpk record built by the
uplink encoder recovers the original payload exactly, and the `size`
field is the payload length, for every payload of at most 250 bytes (the
length bound also keeps `uint32(len(payload))` from wrapping, though that
would need lengths ≥ 2^32). -/
theorem rxpk_data_base64_roundtrip (utc : String) (payload : List Nat)
    (rxInfo : UplinkRXInfo) (txInfo : UplinkTXInfo)
    (hbytes : ∀ b ∈ payload, b < 256) (hlen : payload.length ≤ 250) :
    base64DecodeString ((rxpkOf utc payload rxInfo txInfo).Data) = some payload ∧
    (rxpkOf utc payload rxInfo txInfo).Size = payload.length := by
  constructor
  · show base64DecodeChars (String.toList (String.mk (base64EncodeChars payload))) = some payload
    exact base64_roundtrip payload hbytes
  · show payload.length % 2 ^ 32 = payload.length
    exact Nat.mod_eq_of_lt (lt_of_le_of_lt hlen (by norm_num))

/-- Concrete instantiation of `rxpk_data_base64_roundtrip` on a 4-byte
payload covering the extremes 0 and 255 (its `data` field is the base64
text of `[0, 255, 77, 1]` and decodes back to it; its `size` is 4). -/
theorem rxpk_data_base64_roundtrip_witness :
    base64DecodeString ((rxpkOf "2020-01-01T00:00:00Z" [0, 255, 77, 1] sampleRx sampleTx).Data) =
      some [0, 255, 77, 1] ∧
    (rxpkOf "2020-01-01T00:00:00Z" [0, 255, 77, 1] sampleRx sampleTx).Size = 4 := by
  have h := rxpk_data_base64_roundtrip "2020-01-01T00:00:00Z" [0, 255, 77, 1]
    sampleRx sampleTx (by decide) (by decide)
  exact ⟨h.1, h.2⟩

/-- A successful hex decode consumes exactly two characters per output
byte. -/
theorem hexDecodePairs_ok_length :
    ∀ (cs : List Char) (bs : List Nat), hexDecodePairs cs = .ok bs →
      cs.length = 2 * bs.length
  | [], bs, h => by
      simp only [hexDecodePairs] at h
      cases h
      rfl
  | [c], bs, h => by
      cases h1 : fromHexChar c <;> simp [hexDecodePairs, h1] at h
  | c1 :: c2 :: rest, bs, h => by
      cases h1 : fromHexChar c1 with
      | none => simp [hexDecodePairs, h1] at h
      | some a =>
        cases h2 : fromHexChar c2 with
        | none => simp [hexDecodePairs, h1, h2] at h
        | some b =>
          cases h3 : hexDecodePairs rest with
          | error e => simp [hexDecodePairs, h1, h2, h3] at h
          | ok tail =>
            have ihl := hexDecodePairs_ok_length rest tail h3
            simp only [hexDecodePairs, h1, h2, h3] at h
            cases h
            simp only [List.length_cons]
            omega

/-- C7: whenever the gateway MAC hex-decodes (16 hex characters giving
the 8 MAC bytes), the datagram handed to the UDP send is laid out as the
4-byte header — version 0x02, the two token bytes, message id 0x00 —
followed by the 8 decoded MAC bytes, followed by the UTF-8 JSON body,
and the marshalled `rxpk` array of that body holds exactly one record. -/
theorem push_data_datagram_layout (env : NetEnv) (client : NSClient) (utc : String)
    (token : Nat) (payload : List Nat) (gwMAC : String) (rxInfo : UplinkRXInfo)
    (txInfo : UplinkTXInfo) (gwbytes : List Nat)
    (hhex : hexDecodeString gwMAC = .ok gwbytes) (hlen : gwMAC.length = 16) :
    (NSClient.sendWithPayload env client utc token payload gwMAC rxInfo txInfo).sent =
      some (pushDataHeader token ++ gwbytes ++
        utf8Bytes (jsonMarshalPfproto { RXPK := [rxpkOf utc payload rxInfo txInfo] })) ∧
    pushDataHeader token = [0x02, tokenMSB token, tokenLSB token, 0x00] ∧
    gwbytes.length = 8 ∧
    (pfproto.mk [rxpkOf utc payload rxInfo txInfo]).RXPK.length = 1 := by
  refine ⟨?_, rfl, ?_, rfl⟩
  · simp [NSClient.sendWithPayload, hhex]
  · have hpairs : gwMAC.toList.length = 2 * gwbytes.length :=
      hexDecodePairs_ok_length gwMAC.toList gwbytes hhex
    have hl : gwMAC.toList.length = 16 := hlen
    omega

/-- Concrete instantiation of `push_data_datagram_layout` at the MAC
`"0011223344556677"` (decoding to the bytes `00 11 22 33 44 55 66 77`)
and token 0x1234. -/
theorem push_data_datagram_layout_witness :
    (NSClient.sendWithPayload allOkEnv { Server := "127.0.0.1", Port := 1700, connected := true }
        "2020-01-01T00:00:00Z" 0x1234 [1, 2] "0011223344556677" sampleRx sampleTx).sent =
      some (pushDataHeader 0x1234 ++ [0x00, 0x11, 0x22, 0x33, 0x44, 0x55, 0x66, 0x77] ++
        utf8Bytes (jsonMarshalPfproto
          { RXPK := [rxpkOf "2020-01-01T00:00:00Z" [1, 2] sampleRx sampleTx] })) ∧
    [0x00, 0x11, 0x22, 0x33, 0x44, 0x55, 0x66, 0x77].length = 8 := by
  have h := push_data_datagram_layout allOkEnv
    { Server := "127.0.0.1", Port := 1700, connected := true }
    "2020-01-01T00:00:00Z" 0x1234 [1, 2] "0011223344556677" sampleRx sampleTx
    [0x00, 0x11, 0x22, 0x33, 0x44, 0x55, 0x66, 0x77] (by decide) (by decide)
  exact ⟨h.1, h.2.2.1⟩

end Lds
